import Mathlib

/-!
Shallow embedding of the BondMCP JavaScript/TypeScript client core
(`BondMCPClient` in the repository's client module and the error classes in
`src/types/index.ts`), together with theorems checking the specification's
claims about the request executor, its error classification, its retry
policy, and the client facade's configuration handling.

JavaScript numbers that can be `NaN` are modelled by `JsNum`; JavaScript
truthiness of the values that the code tests with `||` is modelled
explicitly (`jsStrOr`, `jsNatOr`, `jsNumOr`).
-/

namespace BondMCP

/-- A JavaScript number that may be `NaN` (all values arising here are
integral, so the numeric case is an `Int`). -/
inductive JsNum where
  | nan : JsNum
  | int : Int → JsNum
deriving DecidableEq, Repr

/-- `x * n` with JavaScript `NaN` propagation. -/
def JsNum.mulNat : JsNum → Nat → JsNum
  | .nan, _ => .nan
  | .int i, n => .int (i * n)

/-- JavaScript `v || d` for an optional string `v`: the empty string is
falsy, so `undefined` and `""` both fall through to the default. -/
def jsStrOr (v : Option String) (d : String) : String :=
  match v with
  | some s => if s = "" then d else s
  | none => d

/-- JavaScript `v || d` for an optional number `v` known to be a natural:
`undefined` and `0` are falsy and fall through to the default. -/
def jsNatOr (v : Option Nat) (d : Nat) : Nat :=
  match v with
  | some n => if n = 0 then d else n
  | none => d

/-- JavaScript `v || d` for an optional number `v` that may be `NaN`
(`lastError.retryAfter || this.config.retryDelay`): `undefined`, `NaN`
and `0` are falsy and fall through to the default. -/
def jsNumOr (v : Option JsNum) (d : Nat) : Int :=
  match v with
  | some (.int i) => if i = 0 then (d : Int) else i
  | _ => (d : Int)

/-- The response body, abstracted to the one field the executor inspects:
an optional `message` field. The body as a whole is carried opaquely on
the error (`responseData`). -/
structure ResponseBody where
  message : Option String
deriving DecidableEq, Repr

/-- The part of an axios HTTP response the error mapping reads: the status
code, the body, and the `retry-after` response header (`none` when the
header is absent). -/
structure AxiosResp where
  status : Nat
  body : ResponseBody
  retryAfterHeader : Option String
deriving DecidableEq, Repr

/-- The part of an `AxiosError` that `handleError` reads: the error code
string (`error.code`, possibly undefined), the error message, and the
response when one was received. -/
structure AxiosError where
  code : Option String
  message : String
  response : Option AxiosResp
deriving DecidableEq, Repr

/-- The variant tags of the error hierarchy in `src/types/index.ts`: the
base class `BondMCPError` is the `generic` variant, and each subclass is
one tag. -/
inductive ErrorName where
  | generic
  | authentication
  | authorization
  | notFound
  | validation
  | rateLimit
  | server
  | network
  | timeout
  | configuration
deriving DecidableEq, Repr

/-- A constructed error object: variant tag, message, optional status
code, optional response body, and (set only by the `RateLimitError`
construction in `handleError`) an optional retry-after value. -/
structure BondMCPError where
  name : ErrorName
  message : String
  statusCode : Option Nat := none
  responseData : Option ResponseBody := none
  retryAfter : Option JsNum := none
deriving DecidableEq, Repr

/-- Whether `error.code` is one of the four connection-level codes the
mapping tests before looking at the response. -/
def connCode (c : Option String) : Bool :=
  c = some "ECONNABORTED" || c = some "ETIMEDOUT" ||
    c = some "ECONNREFUSED" || c = some "ENOTFOUND"

/-- JavaScript `parseInt(s)` with no radix argument: skip leading
whitespace, read an optional sign, honor a `0x`/`0X` hexadecimal prefix,
then take the longest prefix of digits of the selected radix; if that
prefix is empty the result is `NaN`. -/
def isJsSpace (c : Char) : Bool :=
  c = ' ' || c = '\t' || c = '\n' || c = '\r' || c = '\x0b' || c = '\x0c'

/-- Value of a decimal digit, `none` for a non-digit. -/
def decVal (c : Char) : Option Nat :=
  if '0' ≤ c ∧ c ≤ '9' then some (c.toNat - 48) else none

/-- Value of a hexadecimal digit, `none` for a non-digit. -/
def hexVal (c : Char) : Option Nat :=
  if '0' ≤ c ∧ c ≤ '9' then some (c.toNat - 48)
  else if 'a' ≤ c ∧ c ≤ 'f' then some (c.toNat - 87)
  else if 'A' ≤ c ∧ c ≤ 'F' then some (c.toNat - 55)
  else none

/-- Accumulate the longest prefix of digits; `none` when no digit was
consumed at all. -/
def takeDigits (valOf : Char → Option Nat) (radix : Nat) :
    List Char → Nat → Bool → Option Nat
  | [], acc, seen => if seen then some acc else none
  | c :: cs, acc, seen =>
    match valOf c with
    | some v => takeDigits valOf radix cs (acc * radix + v) true
    | none => if seen then some acc else none

/-- JavaScript `parseInt` on a string, returning `JsNum.nan` when no
digits are found. -/
def parseIntJs (s : String) : JsNum :=
  let cs := s.toList.dropWhile isJsSpace
  let signed : Int × List Char :=
    match cs with
    | '-' :: rest => (-1, rest)
    | '+' :: rest => (1, rest)
    | _ => (1, cs)
  let prefixed : (Char → Option Nat) × Nat × List Char :=
    match signed.2 with
    | '0' :: 'x' :: rest => (hexVal, 16, rest)
    | '0' :: 'X' :: rest => (hexVal, 16, rest)
    | _ => (decVal, 10, signed.2)
  match takeDigits prefixed.1 prefixed.2.1 prefixed.2.2 0 false with
  | some n => .int (signed.1 * n)
  | none => .nan

/-- `BondMCPClient.handleError`: map an axios failure to a typed error.
Connection-level codes map to Timeout/Network; a missing response maps to
Network; otherwise the HTTP status selects the variant, the message is
the body's `message` field when truthy or `"HTTP " ++ status`, and a 429
response parses the `retry-after` header (seconds, times 1000). -/
def handleError (e : AxiosError) : BondMCPError :=
  if e.code = some "ECONNABORTED" ∨ e.code = some "ETIMEDOUT" then
    { name := .timeout, message := "Request timed out: " ++ e.message }
  else if e.code = some "ECONNREFUSED" ∨ e.code = some "ENOTFOUND" then
    { name := .network, message := "Network error: " ++ e.message }
  else
    match e.response with
    | none => { name := .network, message := "Network error: " ++ e.message }
    | some r =>
      let msg := jsStrOr r.body.message ("HTTP " ++ toString r.status)
      if r.status = 401 then
        { name := .authentication, message := msg, statusCode := some r.status,
          responseData := some r.body }
      else if r.status = 403 then
        { name := .authorization, message := msg, statusCode := some r.status,
          responseData := some r.body }
      else if r.status = 404 then
        { name := .notFound, message := msg, statusCode := some r.status,
          responseData := some r.body }
      else if r.status = 422 then
        { name := .validation, message := msg, statusCode := some r.status,
          responseData := some r.body }
      else if r.status = 429 then
        { name := .rateLimit, message := msg, statusCode := some r.status,
          responseData := some r.body,
          retryAfter := some ((parseIntJs (jsStrOr r.retryAfterHeader "0")).mulNat 1000) }
      else if 500 ≤ r.status then
        { name := .server, message := msg, statusCode := some r.status,
          responseData := some r.body }
      else
        { name := .generic, message := msg, statusCode := some r.status,
          responseData := some r.body }

/-- Result of one transport attempt: a success payload or an axios
failure. -/
inductive TransportResult (α : Type) where
  | success : α → TransportResult α
  | failure : AxiosError → TransportResult α

/-- The observable outcome of one `makeRequest` run: the returned payload
or the thrown error, the number of transport calls issued, and the list
of sleep durations requested between attempts (in order). -/
structure RunResult (α : Type) where
  outcome : Except BondMCPError α
  calls : Nat
  waits : List Int

/-- The retry loop of `BondMCPClient.makeRequest`, with the transport
modelled as a function from the zero-based attempt index to that
attempt's result. `fuel` is the number of loop iterations remaining
(`maxRetries + 1 - attempt`); the `fuel = 0` case corresponds to the
`throw lastError!` after the loop, which is unreachable because every
`continue` happens only when `attempt < maxRetries`. -/
def makeRequestLoop {α : Type} (tr : Nat → TransportResult α)
    (maxRetries retryDelay : Nat) :
    Nat → Nat → Option BondMCPError → Nat → List Int → RunResult α
  | _, 0, lastError, calls, waits =>
    ⟨.error (lastError.getD { name := .generic, message := "" }), calls, waits⟩
  | attempt, fuel + 1, _, calls, waits =>
    match tr attempt with
    | .success p => ⟨.ok p, calls + 1, waits⟩
    | .failure ax =>
      let lastError := handleError ax
      if lastError.name = .rateLimit ∧ attempt < maxRetries then
        makeRequestLoop tr maxRetries retryDelay (attempt + 1) fuel
          (some lastError) (calls + 1)
          (waits ++ [jsNumOr lastError.retryAfter retryDelay])
      else if (lastError.name = .network ∨ lastError.name = .timeout) ∧
          attempt < maxRetries then
        makeRequestLoop tr maxRetries retryDelay (attempt + 1) fuel
          (some lastError) (calls + 1)
          (waits ++ [Int.ofNat (retryDelay * 2 ^ attempt)])
      else
        ⟨.error lastError, calls + 1, waits⟩

/-- The resolved (post-default) client configuration
(`Required<BondMCPClientConfig>`). -/
structure ClientConfig where
  apiKey : String
  baseUrl : String
  timeout : Nat
  maxRetries : Nat
  retryDelay : Nat
  userAgent : String
deriving DecidableEq, Repr

/-- `BondMCPClient.makeRequest`: run the retry loop from attempt 0 with
`maxRetries + 1` iterations available and no last error yet. -/
def makeRequest {α : Type} (cfg : ClientConfig) (tr : Nat → TransportResult α) :
    RunResult α :=
  makeRequestLoop tr cfg.maxRetries cfg.retryDelay 0 (cfg.maxRetries + 1) none 0 []

/-- The constructor's input (`BondMCPClientConfig`): every field
optional. -/
structure ClientConfigInput where
  apiKey : Option String := none
  baseUrl : Option String := none
  timeout : Option Nat := none
  maxRetries : Option Nat := none
  retryDelay : Option Nat := none
  userAgent : Option String := none
deriving DecidableEq, Repr

/-- The constructor's configuration resolution: each field is
`config.field || default`, so an explicit falsy value (0 or the empty
string) also selects the default. -/
def mkClientConfig (c : ClientConfigInput) : ClientConfig where
  apiKey := jsStrOr c.apiKey ""
  baseUrl := jsStrOr c.baseUrl "https://api.bondmcp.com"
  timeout := jsNatOr c.timeout 30000
  maxRetries := jsNatOr c.maxRetries 3
  retryDelay := jsNatOr c.retryDelay 1000
  userAgent := jsStrOr c.userAgent "bondmcp-js/2.1.0"

/-- The default headers installed on the axios instance at construction:
content negotiation, the user-agent string, and a bearer authorization
header when an API key is present (truthy). -/
structure DefaultHeaders where
  contentType : String
  accept : String
  userAgentHeader : String
  authorization : Option String
deriving DecidableEq, Repr

/-- The mutable client state the claims touch: the resolved configuration
and the axios instance's default headers. -/
structure ClientState where
  config : ClientConfig
  headers : DefaultHeaders
deriving DecidableEq, Repr

/-- The `BondMCPClient` constructor: resolve configuration, then build the
axios default headers (the authorization header is set only when the
resolved apiKey is truthy, i.e. non-empty). -/
def mkClient (c : ClientConfigInput) : ClientState :=
  let cfg := mkClientConfig c
  { config := cfg
    headers :=
      { contentType := "application/json"
        accept := "application/json"
        userAgentHeader := cfg.userAgent
        authorization :=
          if cfg.apiKey = "" then none else some ("Bearer " ++ cfg.apiKey) } }

/-- `BondMCPClient.setApiKey`: overwrite the configuration's apiKey and
the default Authorization header. -/
def setApiKey (s : ClientState) (apiKey : String) : ClientState :=
  { config := { s.config with apiKey := apiKey }
    headers := { s.headers with authorization := some ("Bearer " ++ apiKey) } }

/-- Spec-side classification table (section 4.1 of the specification),
written from the spec's words for comparison with `handleError`: 401
Authentication, 403 Authorization, 404 NotFound, 422 Validation, 429
RateLimit, at least 500 Server, anything else Generic. -/
def specVariant (status : Nat) : ErrorName :=
  if status = 401 then .authentication
  else if status = 403 then .authorization
  else if status = 404 then .notFound
  else if status = 422 then .validation
  else if status = 429 then .rateLimit
  else if 500 ≤ status then .server
  else .generic

/-- The transient variants the executor retries. -/
def retryableName (n : ErrorName) : Prop :=
  n = .rateLimit ∨ n = .network ∨ n = .timeout

/-- Spelling out `connCode c = false` as the four disequalities the
branches of `handleError` test. -/
theorem connCode_eq_false (c : Option String) (hc : connCode c = false) :
    ¬(c = some "ECONNABORTED" ∨ c = some "ETIMEDOUT") ∧
      ¬(c = some "ECONNREFUSED" ∨ c = some "ENOTFOUND") := by
  simp only [connCode, Bool.or_eq_false_iff, decide_eq_false_iff_not] at hc
  exact ⟨fun h => h.elim hc.1.1.1 hc.1.1.2, fun h => h.elim hc.1.2 hc.2⟩

/-- Claim C1: for every HTTP response failure (a response was received
and the error code is not one of the connection-level codes), the error
mapping produces exactly the variant given by the classification table,
and the error carries the response's status code and body. -/
theorem httpFailureClassification (e : AxiosError) (r : AxiosResp)
    (hr : e.response = some r) (hc : connCode e.code = false) :
    (handleError e).name = specVariant r.status ∧
    (handleError e).statusCode = some r.status ∧
    (handleError e).responseData = some r.body := by
  obtain ⟨hA, hB⟩ := connCode_eq_false e.code hc
  unfold handleError specVariant
  rw [if_neg hA, if_neg hB, hr]
  split_ifs <;> simp_all
  rw [if_neg (by omega)]
  simp

/-- Witness for C1 at a concrete 404 response. -/
def respEx : AxiosResp :=
  { status := 404, body := { message := some "not found" }, retryAfterHeader := none }

/-- A concrete axios error holding `respEx`. -/
def axErrEx : AxiosError :=
  { code := none, message := "Request failed with status code 404", response := some respEx }

theorem httpFailureClassification_witness :
    (handleError axErrEx).name = specVariant 404 ∧
    (handleError axErrEx).statusCode = some 404 ∧
    (handleError axErrEx).responseData = some respEx.body :=
  httpFailureClassification axErrEx respEx rfl rfl

/-- One loop iteration on a successful attempt returns the payload after
one more call. -/
theorem loop_step_success {α : Type} (tr : Nat → TransportResult α)
    (m d attempt fuel : Nat) (lastError : Option BondMCPError) (calls : Nat)
    (waits : List Int) (p : α) (hs : tr attempt = .success p) :
    makeRequestLoop tr m d attempt (fuel + 1) lastError calls waits
      = ⟨.ok p, calls + 1, waits⟩ := by
  simp only [makeRequestLoop, hs]

/-- One loop iteration on a rate-limit failure with attempts remaining:
sleep `retryAfter || retryDelay` and continue. -/
theorem loop_step_rateLimit {α : Type} (tr : Nat → TransportResult α)
    (m d attempt fuel : Nat) (lastError : Option BondMCPError) (calls : Nat)
    (waits : List Int) (ax : AxiosError) (hf : tr attempt = .failure ax)
    (hname : (handleError ax).name = .rateLimit) (hlt : attempt < m) :
    makeRequestLoop tr m d attempt (fuel + 1) lastError calls waits
      = makeRequestLoop tr m d (attempt + 1) fuel (some (handleError ax))
          (calls + 1) (waits ++ [jsNumOr (handleError ax).retryAfter d]) := by
  simp only [makeRequestLoop, hf]
  rw [if_pos ⟨hname, hlt⟩]

/-- One loop iteration on a network or timeout failure with attempts
remaining: sleep `retryDelay * 2 ^ attempt` and continue. -/
theorem loop_step_backoff {α : Type} (tr : Nat → TransportResult α)
    (m d attempt fuel : Nat) (lastError : Option BondMCPError) (calls : Nat)
    (waits : List Int) (ax : AxiosError) (hf : tr attempt = .failure ax)
    (hname : (handleError ax).name = .network ∨ (handleError ax).name = .timeout)
    (hlt : attempt < m) :
    makeRequestLoop tr m d attempt (fuel + 1) lastError calls waits
      = makeRequestLoop tr m d (attempt + 1) fuel (some (handleError ax))
          (calls + 1) (waits ++ [Int.ofNat (d * 2 ^ attempt)]) := by
  simp only [makeRequestLoop, hf]
  rw [if_neg, if_pos ⟨hname, hlt⟩]
  rcases hname with h | h <;> simp [h]

/-- One loop iteration that neither succeeds nor continues throws the
freshly mapped error. -/
theorem loop_step_throw {α : Type} (tr : Nat → TransportResult α)
    (m d attempt fuel : Nat) (lastError : Option BondMCPError) (calls : Nat)
    (waits : List Int) (ax : AxiosError) (hf : tr attempt = .failure ax)
    (h1 : ¬((handleError ax).name = .rateLimit ∧ attempt < m))
    (h2 : ¬(((handleError ax).name = .network ∨ (handleError ax).name = .timeout)
            ∧ attempt < m)) :
    makeRequestLoop tr m d attempt (fuel + 1) lastError calls waits
      = ⟨.error (handleError ax), calls + 1, waits⟩ := by
  simp only [makeRequestLoop, hf]
  rw [if_neg h1, if_neg h2]

/-- When every transport attempt fails and every failure maps to a
retryable variant, the loop consumes all its fuel: it issues one call per
fuel unit and terminates with the error of the final attempt
(`attempt + fuel = maxRetries`, so the final attempt index is
`maxRetries`). -/
theorem loop_exhausts {α : Type} (tr : Nat → TransportResult α)
    (ax : Nat → AxiosError) (maxRetries retryDelay : Nat)
    (hfail : ∀ n, tr n = .failure (ax n))
    (hretry : ∀ n, retryableName (handleError (ax n)).name) :
    ∀ fuel attempt lastError calls waits, attempt + fuel = maxRetries →
      (makeRequestLoop tr maxRetries retryDelay attempt (fuel + 1) lastError
          calls waits).outcome = .error (handleError (ax maxRetries)) ∧
      (makeRequestLoop tr maxRetries retryDelay attempt (fuel + 1) lastError
          calls waits).calls = calls + fuel + 1 := by
  intro fuel
  induction fuel with
  | zero =>
    intro attempt lastError calls waits hsum
    simp only [Nat.add_zero] at hsum
    subst hsum
    rw [loop_step_throw tr attempt retryDelay attempt 0 lastError calls waits
      (ax attempt) (hfail attempt) (by simp [Nat.lt_irrefl])
      (by simp [Nat.lt_irrefl])]
    exact ⟨rfl, rfl⟩
  | succ f ih =>
    intro attempt lastError calls waits hsum
    have hlt : attempt < maxRetries := by omega
    have hsum' : (attempt + 1) + f = maxRetries := by omega
    rcases hretry attempt with hname | hname
    · rw [loop_step_rateLimit tr maxRetries retryDelay attempt (f + 1) lastError
        calls waits (ax attempt) (hfail attempt) hname hlt]
      have h := ih (attempt + 1) (some (handleError (ax attempt))) (calls + 1)
        (waits ++ [jsNumOr (handleError (ax attempt)).retryAfter retryDelay]) hsum'
      exact ⟨h.1, by rw [h.2]; omega⟩
    · rw [loop_step_backoff tr maxRetries retryDelay attempt (f + 1) lastError
        calls waits (ax attempt) (hfail attempt) hname hlt]
      have h := ih (attempt + 1) (some (handleError (ax attempt))) (calls + 1)
        (waits ++ [Int.ofNat (retryDelay * 2 ^ attempt)]) hsum'
      exact ⟨h.1, by rw [h.2]; omega⟩

/-- Claim C2: when the transport fails with a retryable error on every
attempt, `makeRequest` issues exactly `maxRetries + 1` transport calls
and propagates the error produced by the last attempt (index
`maxRetries`). -/
theorem retryableExhaustion {α : Type} (cfg : ClientConfig)
    (tr : Nat → TransportResult α) (ax : Nat → AxiosError)
    (hfail : ∀ n, tr n = .failure (ax n))
    (hretry : ∀ n, retryableName (handleError (ax n)).name) :
    (makeRequest cfg tr).calls = cfg.maxRetries + 1 ∧
    (makeRequest cfg tr).outcome = .error (handleError (ax cfg.maxRetries)) := by
  have h := loop_exhausts tr ax cfg.maxRetries cfg.retryDelay hfail hretry
    cfg.maxRetries 0 none 0 [] (by omega)
  constructor
  · have h2 := h.2
    rw [Nat.zero_add] at h2
    exact h2
  · exact h.1

/-- A connection-refused transport failure (no response received). -/
def netErrEx : AxiosError :=
  { code := some "ECONNREFUSED", message := "connect ECONNREFUSED", response := none }

/-- A transport that refuses the connection on every attempt. -/
def trNet : Nat → TransportResult Nat := fun _ => .failure netErrEx

/-- The configuration produced by a constructor call with no arguments
(all defaults: maxRetries 3, retryDelay 1000). -/
def cfgEx : ClientConfig := mkClientConfig {}

theorem retryableExhaustion_witness :
    (makeRequest cfgEx trNet).calls = cfgEx.maxRetries + 1 ∧
    (makeRequest cfgEx trNet).outcome = .error (handleError netErrEx) := by
  have hn : (handleError netErrEx).name = ErrorName.network := by decide
  exact retryableExhaustion cfgEx trNet (fun _ => netErrEx) (fun _ => rfl)
    (fun _ => Or.inr (Or.inl hn))

/-- When every attempt fails with a network or timeout error, the wait
recorded before each retry of attempt `n` is `retryDelay * 2 ^ n`, for
all attempt indices from `attempt` while attempts remain. -/
theorem loop_backoff_waits {α : Type} (tr : Nat → TransportResult α)
    (ax : Nat → AxiosError) (maxRetries retryDelay : Nat)
    (hfail : ∀ n, tr n = .failure (ax n))
    (hnet : ∀ n, (handleError (ax n)).name = .network ∨
      (handleError (ax n)).name = .timeout) :
    ∀ fuel attempt lastError calls waits, attempt + fuel = maxRetries →
      (makeRequestLoop tr maxRetries retryDelay attempt (fuel + 1) lastError
          calls waits).waits
        = waits ++ (List.range' attempt fuel).map
            (fun n => Int.ofNat (retryDelay * 2 ^ n)) := by
  intro fuel
  induction fuel with
  | zero =>
    intro attempt lastError calls waits hsum
    simp only [Nat.add_zero] at hsum
    subst hsum
    rw [loop_step_throw tr attempt retryDelay attempt 0 lastError calls waits
      (ax attempt) (hfail attempt) (by simp [Nat.lt_irrefl])
      (by simp [Nat.lt_irrefl])]
    simp
  | succ f ih =>
    intro attempt lastError calls waits hsum
    have hlt : attempt < maxRetries := by omega
    rw [loop_step_backoff tr maxRetries retryDelay attempt (f + 1) lastError
      calls waits (ax attempt) (hfail attempt) (hnet attempt) hlt]
    rw [ih (attempt + 1) (some (handleError (ax attempt))) (calls + 1)
      (waits ++ [Int.ofNat (retryDelay * 2 ^ attempt)]) (by omega)]
    rw [List.range'_succ, List.map_cons, List.append_assoc]
    rfl

/-- Claim C4: when every attempt fails with a Network or Timeout error,
the sequence of waits performed by `makeRequest` is exactly
`retryDelay * 2 ^ n` for zero-based attempt index `n`, one wait per
attempt that has retries remaining. -/
theorem backoffWaits {α : Type} (cfg : ClientConfig)
    (tr : Nat → TransportResult α) (ax : Nat → AxiosError)
    (hfail : ∀ n, tr n = .failure (ax n))
    (hnet : ∀ n, (handleError (ax n)).name = .network ∨
      (handleError (ax n)).name = .timeout) :
    (makeRequest cfg tr).waits
      = (List.range cfg.maxRetries).map
          (fun n => Int.ofNat (cfg.retryDelay * 2 ^ n)) := by
  have h := loop_backoff_waits tr ax cfg.maxRetries cfg.retryDelay hfail hnet
    cfg.maxRetries 0 none 0 [] (by omega)
  rw [List.range_eq_range']
  simpa using h

theorem backoffWaits_witness :
    (makeRequest cfgEx trNet).waits = [1000, 2000, 4000] := by
  have hn : (handleError netErrEx).name = ErrorName.network := by decide
  have h := backoffWaits cfgEx trNet (fun _ => netErrEx) (fun _ => rfl)
    (fun _ => Or.inl hn)
  rw [h]
  decide

/-- Claim C5: a first failure mapping to a non-retryable variant is
propagated after exactly one transport call, with zero retries and no
waiting. -/
theorem nonRetryableImmediate {α : Type} (cfg : ClientConfig)
    (tr : Nat → TransportResult α) (ax : AxiosError)
    (hfail : tr 0 = .failure ax)
    (hname : (handleError ax).name = .authentication ∨
      (handleError ax).name = .authorization ∨
      (handleError ax).name = .notFound ∨
      (handleError ax).name = .validation ∨
      (handleError ax).name = .server ∨
      (handleError ax).name = .generic) :
    makeRequest cfg tr = ⟨.error (handleError ax), 1, []⟩ := by
  have h1 : ¬((handleError ax).name = .rateLimit ∧ 0 < cfg.maxRetries) := by
    rcases hname with h | h | h | h | h | h <;> simp [h]
  have h2 : ¬(((handleError ax).name = .network ∨
      (handleError ax).name = .timeout) ∧ 0 < cfg.maxRetries) := by
    rcases hname with h | h | h | h | h | h <;> simp [h]
  exact loop_step_throw tr cfg.maxRetries cfg.retryDelay 0 cfg.maxRetries
    none 0 [] ax hfail h1 h2

/-- A transport failing every attempt with the 404 response `axErrEx`. -/
def trNotFound : Nat → TransportResult Nat := fun _ => .failure axErrEx

theorem nonRetryableImmediate_witness :
    makeRequest cfgEx trNotFound = ⟨.error (handleError axErrEx), 1, []⟩ := by
  have hn : (handleError axErrEx).name = ErrorName.notFound := by decide
  exact nonRetryableImmediate cfgEx trNotFound axErrEx rfl
    (Or.inr (Or.inr (Or.inl hn)))

/-- Claim C6: on a RateLimit failure with attempts remaining, the loop
waits `retryAfter || retryDelay` and retries: the server-provided value
when it is a non-zero number, and the configured base retry delay when
it is absent, zero, or `NaN`. -/
theorem rateLimitWait {α : Type} (tr : Nat → TransportResult α)
    (maxRetries retryDelay attempt fuel : Nat)
    (lastError : Option BondMCPError) (calls : Nat) (waits : List Int)
    (ax : AxiosError) (hf : tr attempt = .failure ax)
    (hname : (handleError ax).name = .rateLimit)
    (hrem : attempt < maxRetries) :
    (makeRequestLoop tr maxRetries retryDelay attempt (fuel + 1) lastError
        calls waits
      = makeRequestLoop tr maxRetries retryDelay (attempt + 1) fuel
          (some (handleError ax)) (calls + 1)
          (waits ++ [jsNumOr (handleError ax).retryAfter retryDelay])) ∧
    (∀ i : Int, (handleError ax).retryAfter = some (.int i) → i ≠ 0 →
      jsNumOr (handleError ax).retryAfter retryDelay = i) ∧
    ((handleError ax).retryAfter = none ∨
        (handleError ax).retryAfter = some (.int 0) ∨
        (handleError ax).retryAfter = some .nan →
      jsNumOr (handleError ax).retryAfter retryDelay = retryDelay) := by
  refine ⟨loop_step_rateLimit tr maxRetries retryDelay attempt fuel lastError
    calls waits ax hf hname hrem, ?_, ?_⟩
  · intro i hi hne
    rw [hi]
    simp [jsNumOr, hne]
  · rintro (h | h | h) <;> rw [h] <;> simp [jsNumOr]

/-- A 429 response with header `Retry-After: 2`. -/
def rlRespEx : AxiosResp :=
  { status := 429, body := { message := none }, retryAfterHeader := some "2" }

/-- The axios error holding `rlRespEx`. -/
def rlErrEx : AxiosError :=
  { code := none, message := "Request failed with status code 429",
    response := some rlRespEx }

/-- A transport answering 429 with `Retry-After: 2` on every attempt. -/
def trRL : Nat → TransportResult Nat := fun _ => .failure rlErrEx

theorem rateLimitWait_witness :
    makeRequestLoop trRL 3 1000 0 4 none 0 []
      = makeRequestLoop trRL 3 1000 1 3 (some (handleError rlErrEx)) 1 [2000] := by
  have h := (rateLimitWait trRL 3 1000 0 3 none 0 [] rlErrEx rfl (by decide)
    (by decide)).1
  have hw : ([] : List Int)
      ++ [jsNumOr (handleError rlErrEx).retryAfter 1000] = [2000] := by decide
  rw [hw] at h
  exact h

/-- A 429 response whose `Retry-After` header holds no digits at all. -/
def rlBadHeaderResp : AxiosResp :=
  { status := 429, body := { message := none }, retryAfterHeader := some "soon" }

/-- The axios error holding `rlBadHeaderResp`. -/
def rlBadHeaderErr : AxiosError :=
  { code := none, message := "Request failed with status code 429",
    response := some rlBadHeaderResp }

/-- Counterexample to claim C3 as stated: with an unparsable
`Retry-After` header, `parseInt` yields `NaN`, and `NaN * 1000` is `NaN`,
not 0 — the resulting RateLimit error does not carry `retryAfter = 0`. -/
theorem retryAfterUnparsable_counterexample :
    (handleError rlBadHeaderErr).name = ErrorName.rateLimit ∧
    (handleError rlBadHeaderErr).retryAfter = some JsNum.nan ∧
    some JsNum.nan ≠ some (JsNum.int 0) := by decide

/-- Claim C3 (amended): for every 429 response, `retryAfter` equals
`parseInt(header || "0") * 1000` with JavaScript semantics — the header
value times 1000 when it parses, 0 when the header is absent (or empty),
and `NaN` when the header is present but unparsable. -/
theorem rateLimitRetryAfter (e : AxiosError) (r : AxiosResp)
    (hr : e.response = some r) (hc : connCode e.code = false)
    (h429 : r.status = 429) :
    (handleError e).retryAfter
      = some ((parseIntJs (jsStrOr r.retryAfterHeader "0")).mulNat 1000) ∧
    (r.retryAfterHeader = none →
      (handleError e).retryAfter = some (JsNum.int 0)) := by
  obtain ⟨hA, hB⟩ := connCode_eq_false e.code hc
  have hmain : (handleError e).retryAfter
      = some ((parseIntJs (jsStrOr r.retryAfterHeader "0")).mulNat 1000) := by
    unfold handleError
    rw [if_neg hA, if_neg hB, hr]
    simp only [h429]
    norm_num
  refine ⟨hmain, fun hnone => ?_⟩
  rw [hmain, hnone]
  decide

/-- A 429 response with no `Retry-After` header at all. -/
def rlNoHeaderResp : AxiosResp :=
  { status := 429, body := { message := none }, retryAfterHeader := none }

/-- The axios error holding `rlNoHeaderResp`. -/
def rlNoHeaderErr : AxiosError :=
  { code := none, message := "Request failed with status code 429",
    response := some rlNoHeaderResp }

theorem rateLimitRetryAfter_witness :
    (handleError rlNoHeaderErr).retryAfter = some (JsNum.int 0) :=
  (rateLimitRetryAfter rlNoHeaderErr rlNoHeaderResp rfl rfl rfl).2 rfl

/-- A 404 response whose body carries a `message` field holding the
empty string. -/
def emptyMsgResp : AxiosResp :=
  { status := 404, body := { message := some "" }, retryAfterHeader := none }

/-- The axios error holding `emptyMsgResp`. -/
def emptyMsgErr : AxiosError :=
  { code := none, message := "Request failed with status code 404",
    response := some emptyMsgResp }

/-- Counterexample to claim C7 as stated: a `message` field that is
present but empty is falsy under `||`, so the mapped error's message is
the synthesized `"HTTP 404"`, not the field's value `""`. -/
theorem messageField_counterexample :
    emptyMsgResp.body.message = some "" ∧
    (handleError emptyMsgErr).message = "HTTP 404" ∧
    ("HTTP 404" : String) ≠ "" := by decide

/-- Claim C7 (amended): for every HTTP response failure, the mapped
error's message is the body's `message` field when that field is present
and non-empty, and the synthesized `"HTTP " ++ status` when the field is
absent or empty. -/
theorem errorMessageMapping (e : AxiosError) (r : AxiosResp)
    (hr : e.response = some r) (hc : connCode e.code = false) :
    (handleError e).message
      = jsStrOr r.body.message ("HTTP " ++ toString r.status) ∧
    (∀ s, r.body.message = some s → s ≠ "" → (handleError e).message = s) ∧
    (r.body.message = none ∨ r.body.message = some "" →
      (handleError e).message = "HTTP " ++ toString r.status) := by
  obtain ⟨hA, hB⟩ := connCode_eq_false e.code hc
  have hmain : (handleError e).message
      = jsStrOr r.body.message ("HTTP " ++ toString r.status) := by
    unfold handleError
    rw [if_neg hA, if_neg hB, hr]
    dsimp only
    split_ifs <;> rfl
  refine ⟨hmain, fun s hs hne => ?_, fun hfalsy => ?_⟩
  · rw [hmain, hs]
    simp [jsStrOr, hne]
  · rcases hfalsy with h | h <;> rw [hmain, h] <;> simp [jsStrOr]

theorem errorMessageMapping_witness :
    (handleError axErrEx).message = "not found" := by
  have h := (errorMessageMapping axErrEx respEx rfl rfl).2.1
  exact h "not found" rfl (by decide)

/-- Claim C8: `setApiKey` replaces exactly the configuration's apiKey
and the default Authorization header; every other configuration field
and default header is unchanged. -/
theorem setApiKeyFrame (s : ClientState) (t : String) :
    (setApiKey s t).config.apiKey = t ∧
    (setApiKey s t).headers.authorization = some ("Bearer " ++ t) ∧
    (setApiKey s t).config.baseUrl = s.config.baseUrl ∧
    (setApiKey s t).config.timeout = s.config.timeout ∧
    (setApiKey s t).config.maxRetries = s.config.maxRetries ∧
    (setApiKey s t).config.retryDelay = s.config.retryDelay ∧
    (setApiKey s t).config.userAgent = s.config.userAgent ∧
    (setApiKey s t).headers.contentType = s.headers.contentType ∧
    (setApiKey s t).headers.accept = s.headers.accept ∧
    (setApiKey s t).headers.userAgentHeader = s.headers.userAgentHeader := by
  simp [setApiKey]

/-- The loop's result depends only on the transport's pointwise
behavior. -/
theorem loop_congr {α : Type} (tr₁ tr₂ : Nat → TransportResult α)
    (m d : Nat) (h : ∀ n, tr₁ n = tr₂ n) :
    ∀ fuel attempt lastError calls waits,
      makeRequestLoop tr₁ m d attempt fuel lastError calls waits
        = makeRequestLoop tr₂ m d attempt fuel lastError calls waits := by
  intro fuel
  induction fuel with
  | zero => intro attempt lastError calls waits; rfl
  | succ f ih =>
    intro attempt lastError calls waits
    cases htr : tr₂ attempt with
    | success p =>
      rw [loop_step_success tr₁ m d attempt f lastError calls waits p
          ((h attempt).trans htr),
        loop_step_success tr₂ m d attempt f lastError calls waits p htr]
    | failure ax =>
      have h₁ : tr₁ attempt = .failure ax := (h attempt).trans htr
      by_cases hrl : (handleError ax).name = .rateLimit ∧ attempt < m
      · rw [loop_step_rateLimit tr₁ m d attempt f lastError calls waits ax h₁
            hrl.1 hrl.2,
          loop_step_rateLimit tr₂ m d attempt f lastError calls waits ax htr
            hrl.1 hrl.2]
        exact ih (attempt + 1) (some (handleError ax)) (calls + 1)
          (waits ++ [jsNumOr (handleError ax).retryAfter d])
      · by_cases hnt : ((handleError ax).name = .network ∨
            (handleError ax).name = .timeout) ∧ attempt < m
        · rw [loop_step_backoff tr₁ m d attempt f lastError calls waits ax h₁
              hnt.1 hnt.2,
            loop_step_backoff tr₂ m d attempt f lastError calls waits ax htr
              hnt.1 hnt.2]
          exact ih (attempt + 1) (some (handleError ax)) (calls + 1)
            (waits ++ [Int.ofNat (d * 2 ^ attempt)])
        · rw [loop_step_throw tr₁ m d attempt f lastError calls waits ax h₁
              hrl hnt,
            loop_step_throw tr₂ m d attempt f lastError calls waits ax htr
              hrl hnt]

/-- Claim C9: classification is deterministic — two executions against
transports with identical responses produce identical results (outcome,
call count and waits), so in particular the same error variant, message,
status code and retry-after value. -/
theorem classificationDeterministic {α : Type} (cfg : ClientConfig)
    (tr₁ tr₂ : Nat → TransportResult α) (h : ∀ n, tr₁ n = tr₂ n) :
    makeRequest cfg tr₁ = makeRequest cfg tr₂ :=
  loop_congr tr₁ tr₂ cfg.maxRetries cfg.retryDelay h (cfg.maxRetries + 1)
    0 none 0 []

/-- A second transport with the same pointwise behavior as `trRL`. -/
def trRLagain : Nat → TransportResult Nat := fun _ => .failure rlErrEx

theorem classificationDeterministic_witness :
    makeRequest cfgEx trRL = makeRequest cfgEx trRLagain :=
  classificationDeterministic cfgEx trRL trRLagain (fun _ => rfl)

/-- Claim C10: a numeric constructor option explicitly set to 0, or a
string option set to the empty string, is falsy under `||`, so the
resolved configuration holds the documented default for that field. -/
theorem constructorFalsyDefaults (c : ClientConfigInput) :
    (c.timeout = some 0 → (mkClientConfig c).timeout = 30000) ∧
    (c.maxRetries = some 0 → (mkClientConfig c).maxRetries = 3) ∧
    (c.retryDelay = some 0 → (mkClientConfig c).retryDelay = 1000) ∧
    (c.apiKey = some "" → (mkClientConfig c).apiKey = "") ∧
    (c.baseUrl = some "" →
      (mkClientConfig c).baseUrl = "https://api.bondmcp.com") ∧
    (c.userAgent = some "" →
      (mkClientConfig c).userAgent = "bondmcp-js/2.1.0") := by
  refine ⟨fun h => ?_, fun h => ?_, fun h => ?_, fun h => ?_, fun h => ?_,
    fun h => ?_⟩ <;>
    simp [mkClientConfig, jsNatOr, jsStrOr, h]

/-- A constructor call in which every option is explicitly falsy. -/
def zeroInput : ClientConfigInput :=
  { apiKey := some "", baseUrl := some "", timeout := some 0,
    maxRetries := some 0, retryDelay := some 0, userAgent := some "" }

theorem constructorFalsyDefaults_witness :
    (mkClientConfig zeroInput).timeout = 30000 ∧
    (mkClientConfig zeroInput).maxRetries = 3 ∧
    (mkClientConfig zeroInput).retryDelay = 1000 ∧
    (mkClientConfig zeroInput).apiKey = "" ∧
    (mkClientConfig zeroInput).baseUrl = "https://api.bondmcp.com" ∧
    (mkClientConfig zeroInput).userAgent = "bondmcp-js/2.1.0" := by
  obtain ⟨h1, h2, h3, h4, h5, h6⟩ := constructorFalsyDefaults zeroInput
  exact ⟨h1 rfl, h2 rfl, h3 rfl, h4 rfl, h5 rfl, h6 rfl⟩

end BondMCP
